import Mathlib

/-
Verification of the rpi-cnc-sender G-code streaming core (src/cnc_sender.py).

The definitions below are a shallow embedding of the Python source:
  * the serial transport is an injected oracle `resp : Nat → List String`
    giving, for the n-th command written with a response wait, the stream of
    (already decoded and stripped) lines the firmware produces; an empty
    string models a read that timed out with no data;
  * a wait loop that would spin forever on a finite stream that never
    produces a terminal line is modelled as `none` ("blocks");
  * a Python exception escaping a function is modelled explicitly
    (`Except.error` / dedicated `raises` outcomes);
  * machine floats are modelled as exact rationals `ℚ`;
  * the concurrently mutated machine state read by `machine.get_state()`
    inside the job-runner worker is an oracle `stOr : Nat → MachineState`,
    consumed one value per `get_state()` call, which linearises the
    interleaving with the UI thread.
-/

/-- MachineState mirrors the `MachineState` enum of cnc_sender.py. -/
inductive MachineState where
  | READY
  | RUNNING
  | PAUSED
  | STOPPED
  | PROBING1
  | PROBING2
deriving DecidableEq

/-- Substring test on char lists: Python `needle in hay`. -/
def hasSub (needle : List Char) : List Char → Bool
  | [] => needle.isEmpty
  | c :: t => needle.isPrefixOf (c :: t) || hasSub needle t

/-- Python `pat in hay` on strings. -/
def strContains (hay pat : String) : Bool :=
  hasSub pat.toList hay.toList

/-- Python `s.startswith(p)`. -/
def strStarts (p s : String) : Bool :=
  p.toList.isPrefixOf s.toList

/-- Numeric value of a list of decimal digit characters. -/
def digitsValNat : List Char → Nat
  | [] => 0
  | c :: t => digitsValNat t + c.toNat % 48 * 10 ^ t.length

/-- Fractional and integral part combination for Python `float(...)` on an
unsigned literal: `digits`, `digits.`, `.digits` or `digits.digits`;
anything else raises, modelled as `none`. -/
def parseUnsigned (cs : List Char) : Option ℚ :=
  let intPart := cs.takeWhile Char.isDigit
  let rest := cs.dropWhile Char.isDigit
  match rest with
  | [] => if intPart.isEmpty then none else some (digitsValNat intPart : ℚ)
  | '.' :: frac =>
    if frac.all Char.isDigit && !(intPart.isEmpty && frac.isEmpty) then
      some ((digitsValNat intPart : ℚ) + (digitsValNat frac : ℚ) / 10 ^ frac.length)
    else none
  | _ => none

/-- Python `float(str)` restricted to the character shapes the probe-report
regex can capture (sign, digits, dots; no exponents). -/
def parseFloat : List Char → Option ℚ
  | '-' :: rest => (parseUnsigned rest).map Neg.neg
  | '+' :: rest => parseUnsigned rest
  | cs => parseUnsigned cs

/-- Character class `[-?\d.]` of the probe-report regex in get_z_position. -/
def prbClassChar (c : Char) : Bool :=
  c = '-' || c = '?' || c.isDigit || c = '.'

/-- Attempt to match the regex `PRB:[-?\d.]+,[-?\d.]+,([-?\d.]+)` at the head
of the char list, returning the captured third field.  The character class
excludes the comma, so the greedy `+` never needs to backtrack. -/
def matchPRBAt (l : List Char) : Option (List Char) :=
  if ['P', 'R', 'B', ':'].isPrefixOf l then
    let r0 := l.drop 4
    let f1 := r0.takeWhile prbClassChar
    let r1 := r0.dropWhile prbClassChar
    if f1.isEmpty then none
    else
      match r1 with
      | ',' :: r2 =>
        let f2 := r2.takeWhile prbClassChar
        let r3 := r2.dropWhile prbClassChar
        if f2.isEmpty then none
        else
          match r3 with
          | ',' :: r4 =>
            let f3 := r4.takeWhile prbClassChar
            if f3.isEmpty then none else some f3
          | _ => none
      | _ => none
  else none

/-- `re.search`: try the pattern at each position, leftmost match wins. -/
def prbSearch : List Char → Option (List Char)
  | [] => none
  | c :: t =>
    match matchPRBAt (c :: t) with
    | some g => some g
    | none => prbSearch t

/-- get_z_position of cnc_sender.py: scan the response lines for the first
line containing `PRB` whose regex match succeeds and convert the captured
Z field with `float` (a capture `float` rejects raises, `Except.error`);
if no line matches, return `None`. -/
def get_z_position : List String → Except Unit (Option ℚ)
  | [] => Except.ok none
  | line :: rest =>
    if strContains line "PRB" then
      match prbSearch line.toList with
      | some g =>
        match parseFloat g with
        | some z => Except.ok (some z)
        | none => Except.error ()
      | none => get_z_position rest
    else get_z_position rest

/-- Terminal-line test of the send_gcode_and_wait read loop: in probing mode
only a line containing `PRB` stops the loop; otherwise a line containing
`ok`, `error`, `ALARM` or `PRB` does. -/
def terminalFor (probing : Bool) (l : String) : Bool :=
  if probing then strContains l "PRB"
  else strContains l "ok" || strContains l "error" || strContains l "ALARM" || strContains l "PRB"

/-- Read loop of send_gcode_and_wait: read a line; skip it when empty,
append it and stop when terminal, append it and continue otherwise.  A
stream exhausted without a terminal line means the Python loop never
returns: `none`. -/
def waitResp (probing : Bool) (acc : List String) : List String → Option (List String)
  | [] => none
  | l :: rest =>
    if l = "" then waitResp probing acc rest
    else if terminalFor probing l then some (acc ++ [l])
    else waitResp probing (acc ++ [l]) rest

/-- send_gcode_and_wait of cnc_sender.py, as a function of the response line
stream of the command just written (wait_for_response=True paths). -/
def send_gcode_and_wait (probing : Bool) (stream : List String) : Option (List String) :=
  waitResp probing [] stream

/-- Zero-pad a value below 10000 to four digits, for the `:.4f` format. -/
def pad4 (k : Nat) : String :=
  if k < 10 then "000" ++ toString k
  else if k < 100 then "00" ++ toString k
  else if k < 1000 then "0" ++ toString k
  else toString k

/-- Python `f"{q:.4f}"`: round to four decimal places and print with exactly
four fractional digits.  Rounding of an exact half differs from CPython
(half-even on the binary value) but no claim exercises a tie. -/
def format4 (q : ℚ) : String :=
  let n : Int := Int.floor (q * 10000 + 1 / 2)
  let sign := if n < 0 then "-" else ""
  sign ++ toString (n.natAbs / 10000) ++ "." ++ pad4 (n.natAbs % 10000)

/-- Fast first touch-off command of probe_tool. -/
def probeFastCmd : String := "G38.2 Z-50 F200"

/-- Back-off command between the two touch-offs of probe_tool. -/
def backOffCmd : String := "G0 Z10"

/-- Slow confirming touch-off command of probe_tool. -/
def probeSlowCmd : String := "G38.2 Z-50 F100"

/-- Possible results of running probe_tool: the read loop never saw its
terminal line (`blocks`), a `float` conversion raised (`raises`), or the
function returned with `z_position` equal to `some z` or `none`. -/
inductive ProbeOutcome where
  | blocks
  | raises
  | reading (z : Option ℚ)
deriving DecidableEq

/-- probe_tool of cnc_sender.py.  `resp n` is the response stream for the
n-th command sent with a wait; the result is the list of commands written,
the next response index, and the outcome.  The first touch-off response is
parsed (so a bad capture raises before backing off) and discarded; the
returned reading comes from the second, F100, touch-off only. -/
def probe_tool (resp : Nat → List String) (w : Nat) :
    List String × Nat × ProbeOutcome :=
  match send_gcode_and_wait true (resp w) with
  | none => ([probeFastCmd], w + 1, ProbeOutcome.blocks)
  | some r1 =>
    match get_z_position r1 with
    | Except.error _ => ([probeFastCmd], w + 1, ProbeOutcome.raises)
    | Except.ok _ =>
      match send_gcode_and_wait false (resp (w + 1)) with
      | none => ([probeFastCmd, backOffCmd], w + 2, ProbeOutcome.blocks)
      | some _ =>
        match send_gcode_and_wait true (resp (w + 2)) with
        | none => ([probeFastCmd, backOffCmd, probeSlowCmd], w + 3, ProbeOutcome.blocks)
        | some r2 =>
          match get_z_position r2 with
          | Except.error _ => ([probeFastCmd, backOffCmd, probeSlowCmd], w + 3, ProbeOutcome.raises)
          | Except.ok z => ([probeFastCmd, backOffCmd, probeSlowCmd], w + 3, ProbeOutcome.reading z)

/-- Possible results of apply_tool_offset: a wait never terminated, an
exception escaped (bad capture, or `reference_z - new_tool_z` with
`reference_z = None`, the Python `TypeError`), the new-tool reading was
missing so the function returned before the offset step, or the `G43`
offset command was sent. -/
inductive ApplyOutcome where
  | blocks
  | raises
  | noReading
  | applied (offset : ℚ)
deriving DecidableEq

/-- apply_tool_offset of cnc_sender.py.  Probes the new tool; on a missing
reading prints and returns (no offset command); otherwise computes
`offset = reference_z - new_tool_z` and sends `G43 Z{offset:.4f}`. -/
def apply_tool_offset (reference_z : Option ℚ) (resp : Nat → List String) (w : Nat) :
    List String × Nat × ApplyOutcome :=
  match probe_tool resp w with
  | (cmds, w1, ProbeOutcome.blocks) => (cmds, w1, ApplyOutcome.blocks)
  | (cmds, w1, ProbeOutcome.raises) => (cmds, w1, ApplyOutcome.raises)
  | (cmds, w1, ProbeOutcome.reading none) => (cmds, w1, ApplyOutcome.noReading)
  | (cmds, w1, ProbeOutcome.reading (some z)) =>
    match reference_z with
    | none => (cmds, w1, ApplyOutcome.raises)
    | some r =>
      match send_gcode_and_wait false (resp w1) with
      | none => (cmds ++ ["G43 Z" ++ format4 (r - z)], w1 + 1, ApplyOutcome.blocks)
      | some _ => (cmds ++ ["G43 Z" ++ format4 (r - z)], w1 + 1, ApplyOutcome.applied (r - z))

/-- Send a fixed sequence of commands, each through send_gcode_and_wait with
the default (ok/error) wait; returns the commands written (including the one
whose wait never terminated, since the write precedes the read) and, unless
a wait blocked, the next response index. -/
def sendSeqF (resp : Nat → List String) : List String → Nat → List String × Option Nat
  | [], w => ([], some w)
  | c :: rest, w =>
    match send_gcode_and_wait false (resp w) with
    | none => ([c], none)
    | some _ =>
      let r := sendSeqF resp rest (w + 1)
      (c :: r.1, r.2)

/-- How a probe routine invocation ended: returned normally, never returned
because a response wait blocked, or a Python exception escaped it. -/
inductive RoutineOutcome where
  | completed
  | blocked
  | raised
deriving DecidableEq

/-- Setup commands both probe routines send before probing (feed hold, stop
spindle, absolute positioning, move to probe XY, relative positioning), with
Python float formatting of the coordinates. -/
def preProbeCmds : List String := ["!", "M5", "G90", "G0 X-21.55 Y-350.5", "G91"]

/-- Commands probe_old_tool sends after probing (absolute positioning, move
to the tool-change position, feed hold). -/
def postProbeCmds : List String := ["G90", "G0 X-100.0 Y-250.0 Z0.0", "!"]

/-- probe_old_tool of cnc_sender.py.  Transitions to PROBING1 immediately;
with a transport attached it sends the setup commands, runs probe_tool and
stores the reading in `old_tool_z`, sends the tool-change moves, and only
then transitions to PROBING2.  The returned machine state is the state when
the routine ends (or hangs); the `Option (Option ℚ)` is the value assigned
to the `old_tool_z` global (`none` when the assignment was never reached).
In dummy mode it only prints and transitions. -/
def probe_old_tool (dummy : Bool) (resp : Nat → List String) (w : Nat) :
    MachineState × RoutineOutcome × Option (Option ℚ) × List String :=
  if dummy then (MachineState.PROBING2, RoutineOutcome.completed, none, [])
  else
    match sendSeqF resp preProbeCmds w with
    | (cs, none) => (MachineState.PROBING1, RoutineOutcome.blocked, none, cs)
    | (cs, some w1) =>
      match probe_tool resp w1 with
      | (pcs, _, ProbeOutcome.blocks) =>
        (MachineState.PROBING1, RoutineOutcome.blocked, none, cs ++ pcs)
      | (pcs, _, ProbeOutcome.raises) =>
        (MachineState.PROBING1, RoutineOutcome.raised, none, cs ++ pcs)
      | (pcs, w2, ProbeOutcome.reading z) =>
        match sendSeqF resp postProbeCmds w2 with
        | (cs2, none) => (MachineState.PROBING1, RoutineOutcome.blocked, some z, cs ++ pcs ++ cs2)
        | (cs2, some _) => (MachineState.PROBING2, RoutineOutcome.completed, some z, cs ++ pcs ++ cs2)

/-- probe_new_tool of cnc_sender.py.  `st` is the machine state on entry
(the routine makes no transition of its own until its final one): it sends
the setup commands, runs apply_tool_offset with the stored reference, writes
the raw `$H` home command, and transitions to READY — unconditionally, even
when apply_tool_offset obtained no reading.  Only a blocked wait or an
escaping exception leaves the machine in its entry state. -/
def probe_new_tool (dummy : Bool) (old_tool_z : Option ℚ) (st : MachineState)
    (resp : Nat → List String) (w : Nat) :
    MachineState × RoutineOutcome × List String :=
  if dummy then (MachineState.READY, RoutineOutcome.completed, [])
  else
    match sendSeqF resp preProbeCmds w with
    | (cs, none) => (st, RoutineOutcome.blocked, cs)
    | (cs, some w1) =>
      match apply_tool_offset old_tool_z resp w1 with
      | (acs, _, ApplyOutcome.blocks) => (st, RoutineOutcome.blocked, cs ++ acs)
      | (acs, _, ApplyOutcome.raises) => (st, RoutineOutcome.raised, cs ++ acs)
      | (acs, _, _) => (MachineState.READY, RoutineOutcome.completed, cs ++ acs ++ ["$H\n"])

/-- pause_resume of cnc_sender.py: a toggle.  Returns the machine state
after the call and the raw bytes written to the transport.  In any state
other than RUNNING or PAUSED neither branch fires: nothing is written, the
state is unchanged, and no error is raised. -/
def pause_resume (dummy : Bool) (st : MachineState) : MachineState × List String :=
  match st with
  | MachineState.RUNNING => (MachineState.PAUSED, if dummy then [] else ["!"])
  | MachineState.PAUSED => (MachineState.RUNNING, if dummy then [] else ["~"])
  | s => (s, [])

/-- Operations stop_program performs on the serial transport. -/
inductive TransportOp where
  | write (bytes : String)
  | flush
  | resetInput
  | resetOutput
deriving DecidableEq

/-- stop_program of cnc_sender.py: transition to STOPPED from any state,
then (with a transport attached) write feed hold, spindle stop and soft
reset — each followed by a flush — and reset both transport buffers. -/
def stop_program (dummy : Bool) (st : MachineState) : MachineState × List TransportOp :=
  match st with
  | _ =>
    (MachineState.STOPPED,
      if dummy then []
      else
        [TransportOp.write "!", TransportOp.flush,
         TransportOp.write "M5\n", TransportOp.flush,
         TransportOp.write "\x18\n", TransportOp.flush,
         TransportOp.resetInput, TransportOp.resetOutput])

/-- Whitespace characters Python `str.strip()` removes (ASCII range). -/
def pyWhitespaceChar (c : Char) : Bool :=
  c = ' ' || c = '\t' || c = '\n' || c = '\r' || c = '\x0b' || c = '\x0c'

/-- Python `s.strip()` on a char list: drop whitespace from both ends. -/
def stripChars (cs : List Char) : List Char :=
  ((cs.dropWhile pyWhitespaceChar).reverse.dropWhile pyWhitespaceChar).reverse

/-- Python `s.strip()`. -/
def pyStrip (s : String) : String :=
  String.mk (stripChars s.toList)

/-- Response wait of send_line inside gcode_thread: read stripped lines;
a line exactly equal to `ok` breaks with success, a line starting with
`error` breaks (logged, non-fatal), anything else — including an empty
read — sleeps and reads again.  A stream with no such line never breaks:
`none`. -/
def send_line_wait : List String → Option Bool
  | [] => none
  | r :: rest =>
    if r = "ok" then some true
    else if strStarts "error" r then some false
    else send_line_wait rest

/-- Result of one send_line call: the line was blank after stripping and
skipped, or it was written and acknowledged (`ok` or `error`), or it was
written and the wait never terminated. -/
inductive SendRes where
  | skipped
  | done
  | blockedR
deriving DecidableEq

/-- send_line of gcode_thread (cnc_sender.py): skip the line when it strips
to nothing, otherwise write it and wait; note the commented-out filter for
`;` comment lines is NOT active, so comment lines are written.  Returns the
result and the next response index. -/
def send_line (resp : Nat → List String) (l : String) (w : Nat) : SendRes × Nat :=
  if pyStrip l = "" then (SendRes.skipped, w)
  else
    match send_line_wait (resp w) with
    | none => (SendRes.blockedR, w + 1)
    | some _ => (SendRes.done, w + 1)

/-- The pause-spin of gcode_thread: while `get_state()` is PAUSED, sleep and
break out early when a second `get_state()` read says RUNNING.  `k` counts
`get_state()` calls consumed so far; the result is the call counter after
the spin exits, or `none` when the fuel for the unbounded Python loop runs
out (an unbounded pause). -/
def spin (stOr : Nat → MachineState) (l : String) : Nat → Nat → Option Nat
  | 0, _ => none
  | Nat.succ f, k =>
    if stOr k = MachineState.PAUSED then
      if l = "" then spin stOr l f (k + 1)
      else if stOr (k + 1) = MachineState.RUNNING then some (k + 2)
      else spin stOr l f (k + 2)
    else some (k + 1)

/-- How the streaming for-loop of gcode_thread ended. -/
inductive LoopOut where
  | finished (k w : Nat)
  | stoppedAbort
  | blockedL
  | fuelout
deriving DecidableEq

/-- The streaming for-loop of gcode_thread: per line, check for STOPPED at
the top (abort), run the pause-spin, then send_line.  Returns the program
lines actually written, each paired with the `get_state()` call counter at
the moment of the write, plus how the loop ended. -/
def runLoop (stOr : Nat → MachineState) (resp : Nat → List String) (fuel : Nat) :
    List String → Nat → Nat → List (String × Nat) × LoopOut
  | [], k, w => ([], LoopOut.finished k w)
  | l :: rest, k, w =>
    if stOr k = MachineState.STOPPED then ([], LoopOut.stoppedAbort)
    else
      match spin stOr l fuel (k + 1) with
      | none => ([], LoopOut.fuelout)
      | some k1 =>
        match send_line resp l w with
        | (SendRes.skipped, w1) => runLoop stOr resp fuel rest k1 w1
        | (SendRes.blockedR, _) => ([(l, k1)], LoopOut.blockedL)
        | (SendRes.done, w1) =>
          let r := runLoop stOr resp fuel rest k1 w1
          ((l, k1) :: r.1, r.2)

/-- Completion trailer of gcode_thread (spindle stop, home, soft reset sent
through send_line when the machine is still RUNNING after the loop). -/
def sendTrailer (resp : Nat → List String) (w : Nat) : List String × Option Nat :=
  match send_line resp "M5\n" w with
  | (SendRes.blockedR, _) => (["M5\n"], none)
  | (_, w1) =>
    match send_line resp "$H\n" w1 with
    | (SendRes.blockedR, _) => (["M5\n", "$H\n"], none)
    | (_, w2) =>
      match send_line resp "\x18\n" w2 with
      | (SendRes.blockedR, _) => (["M5\n", "$H\n", "\x18\n"], none)
      | (_, _) => (["M5\n", "$H\n", "\x18\n"], some (w2 + 1))

/-- Observable result of one gcode_thread run: the program lines written
(with the `get_state()` call counter at each write), the trailer commands
written after the loop, and the machine state the thread's `finally` block
leaves behind (`none` when the worker never terminates because a response
wait blocked or a pause never ended). -/
structure GResult where
  progSent : List (String × Nat)
  trailerSent : List String
  finalState : Option MachineState
deriving DecidableEq

/-- gcode_thread of cnc_sender.py with a transport attached: home first via
send_line, stream the file lines through the loop, send the trailer when
still RUNNING at the end, and in `finally` transition to READY whether the
job completed or was stopped. -/
def gcode_thread (stOr : Nat → MachineState) (resp : Nat → List String) (fuel : Nat)
    (lines : List String) : GResult :=
  match send_line resp "$H\n" 0 with
  | (SendRes.blockedR, _) => ⟨[], [], none⟩
  | (_, w0) =>
    match runLoop stOr resp fuel lines 0 w0 with
    | (tr, LoopOut.blockedL) => ⟨tr, [], none⟩
    | (tr, LoopOut.fuelout) => ⟨tr, [], none⟩
    | (tr, LoopOut.stoppedAbort) => ⟨tr, [], some MachineState.READY⟩
    | (tr, LoopOut.finished k w) =>
      if stOr k = MachineState.RUNNING then
        match sendTrailer resp w with
        | (ts, none) => ⟨tr, ts, none⟩
        | (ts, some _) => ⟨tr, ts, some MachineState.READY⟩
      else ⟨tr, [], some MachineState.READY⟩

/-- State oracle of a run during which the operator never touches the
controls: every `get_state()` call returns RUNNING. -/
def alwaysRunning : Nat → MachineState := fun _ => MachineState.RUNNING

/-- Stub transport that replies `ok` to every written command. -/
def okTransport : Nat → List String := fun _ => ["ok"]

/-- C4: probe_tool performs two touch-offs — fast probe, back off 10mm, slow
F100 confirm probe — and returns the Z parsed from the second probe report:
with a transport answering `PRB:0,0,-45.23` to the fast probe, `ok` to the
back-off and `PRB:0,0,-45.01` to the F100 confirm probe, it sends exactly
the three commands and returns -45.01, the second reading. -/
theorem probe_tool_two_touch_second_reading :
    probe_tool
      (fun n => match n with
        | 0 => ["PRB:0,0,-45.23"]
        | 1 => ["ok"]
        | 2 => ["PRB:0,0,-45.01"]
        | _ => []) 0 =
      (["G38.2 Z-50 F200", "G0 Z10", "G38.2 Z-50 F100"], 3,
        ProbeOutcome.reading (some (-(4501 / 100)))) := by
  have h : probe_tool
      (fun n => match n with
        | 0 => ["PRB:0,0,-45.23"]
        | 1 => ["ok"]
        | 2 => ["PRB:0,0,-45.01"]
        | _ => []) 0 =
      (["G38.2 Z-50 F200", "G0 Z10", "G38.2 Z-50 F100"], 3,
        ProbeOutcome.reading (some (-(((45 : ℕ) : ℚ) + ((1 : ℕ) : ℚ) / 10 ^ (2 : ℕ))))) := rfl
  rw [h]
  have h2 : (-(((45 : ℕ) : ℚ) + ((1 : ℕ) : ℚ) / 10 ^ (2 : ℕ))) = -((4501 : ℚ) / 100) := by
    push_cast
    norm_num
  rw [h2]

/-- C9: on a stop request with a real transport attached, the machine
transitions to STOPPED from every state and exactly feed-hold `!`,
spindle-stop `M5` and soft-reset 0x18 are written, in that order and each
flushed, followed by a reset of the input and output buffers. -/
theorem stop_program_stop_sequence (st : MachineState) :
    stop_program false st =
      (MachineState.STOPPED,
        [TransportOp.write "!", TransportOp.flush,
         TransportOp.write "M5\n", TransportOp.flush,
         TransportOp.write "\x18\n", TransportOp.flush,
         TransportOp.resetInput, TransportOp.resetOutput]) := by
  cases st <;> rfl

/-- C8 counterexample: pause and resume are one toggle in the code.
Invoking the pause/resume control while the machine is already Paused is
not a no-op: it transitions to RUNNING and writes the resume byte `~`. -/
theorem pause_resume_paused_not_noop :
    pause_resume false MachineState.PAUSED = (MachineState.RUNNING, ["~"]) ∧
      pause_resume false MachineState.PAUSED ≠ (MachineState.PAUSED, []) := by
  decide

/-- C8 amended: the pause/resume control is a toggle; invoked while PAUSED
it resumes and while RUNNING it pauses, but invoked in any other state it
is a no-op — no control byte is written, the state is unchanged, and no
error is raised to the caller. -/
theorem pause_resume_noop_outside_running_paused (dummy : Bool) (st : MachineState)
    (h1 : st ≠ MachineState.RUNNING) (h2 : st ≠ MachineState.PAUSED) :
    pause_resume dummy st = (st, []) := by
  cases st <;> first
    | rfl
    | exact absurd rfl h1
    | exact absurd rfl h2

/-- C8 witness: invoking the toggle while STOPPED leaves the machine
STOPPED and writes nothing. -/
theorem pause_resume_noop_witness :
    pause_resume false MachineState.STOPPED = (MachineState.STOPPED, []) :=
  pause_resume_noop_outside_running_paused false MachineState.STOPPED
    (by decide) (by decide)

/-- C10: probe_tool's return value depends only on the second, F100,
touch-off response: whenever the second response parses to no reading, the
function returns `None` even though the first response parsed successfully
— the first reading is overwritten, never used as a fallback. -/
theorem probe_tool_ignores_first_reading (resp : Nat → List String) (w : Nat)
    (r1 rb r2 : List String) (z1 : ℚ)
    (h1 : send_gcode_and_wait true (resp w) = some r1)
    (h2 : get_z_position r1 = Except.ok (some z1))
    (hb : send_gcode_and_wait false (resp (w + 1)) = some rb)
    (h3 : send_gcode_and_wait true (resp (w + 2)) = some r2)
    (h4 : get_z_position r2 = Except.ok none) :
    probe_tool resp w =
      ([probeFastCmd, backOffCmd, probeSlowCmd], w + 3, ProbeOutcome.reading none) := by
  simp only [probe_tool, h1, h2, hb, h3, h4]

/-- C10 witness: the fast probe parses -45.23 but the confirm probe report
is malformed (`PRB:oops`), so probe_tool returns no reading. -/
theorem probe_tool_ignores_first_reading_witness :
    probe_tool
      (fun n => match n with
        | 0 => ["PRB:0,0,-45.23"]
        | 1 => ["ok"]
        | 2 => ["PRB:oops"]
        | _ => []) 0 =
      ([probeFastCmd, backOffCmd, probeSlowCmd], 3, ProbeOutcome.reading none) :=
  probe_tool_ignores_first_reading
    (fun n => match n with
      | 0 => ["PRB:0,0,-45.23"]
      | 1 => ["ok"]
      | 2 => ["PRB:oops"]
      | _ => []) 0
    ["PRB:0,0,-45.23"] ["ok"] ["PRB:oops"]
    (-(((45 : ℕ) : ℚ) + ((23 : ℕ) : ℚ) / 10 ^ (2 : ℕ)))
    rfl rfl rfl rfl rfl

/-- C5: apply_tool_offset computes `offset = reference_z - new_tool_z` and,
whenever the new-tool probe produced a reading, appends exactly one offset
command `G43 Z<offset formatted to 4 decimals>` to the commands written. -/
theorem apply_tool_offset_offset_formula (r z : ℚ) (resp : Nat → List String)
    (w w1 : Nat) (cs : List String)
    (h : probe_tool resp w = (cs, w1, ProbeOutcome.reading (some z))) :
    (apply_tool_offset (some r) resp w).1 = cs ++ ["G43 Z" ++ format4 (r - z)] ∧
    ((apply_tool_offset (some r) resp w).2.2 = ApplyOutcome.applied (r - z) ∨
      (apply_tool_offset (some r) resp w).2.2 = ApplyOutcome.blocks) := by
  simp only [apply_tool_offset, h]
  cases hs : send_gcode_and_wait false (resp w1) with
  | none => exact ⟨rfl, Or.inr rfl⟩
  | some rr => exact ⟨rfl, Or.inl rfl⟩

/-- C5 witness: with reference Z -45.01 and a transport whose confirm probe
reports -47.30, the offset command carries `G43 Z2.2900`: the difference
2.29 formatted to four decimal places. -/
theorem apply_tool_offset_offset_formula_witness :
    (apply_tool_offset (some (-((4501 : ℚ) / 100)))
      (fun n => match n with
        | 0 => ["PRB:0,0,-47.5"]
        | 1 => ["ok"]
        | 2 => ["PRB:0,0,-47.30"]
        | 3 => ["ok"]
        | _ => []) 0).1 =
    ["G38.2 Z-50 F200", "G0 Z10", "G38.2 Z-50 F100", "G43 Z2.2900"] := by
  have h : probe_tool
      (fun n => match n with
        | 0 => ["PRB:0,0,-47.5"]
        | 1 => ["ok"]
        | 2 => ["PRB:0,0,-47.30"]
        | 3 => ["ok"]
        | _ => []) 0 =
      (["G38.2 Z-50 F200", "G0 Z10", "G38.2 Z-50 F100"], 3,
        ProbeOutcome.reading (some (-(((47 : ℕ) : ℚ) + ((30 : ℕ) : ℚ) / 10 ^ (2 : ℕ))))) := rfl
  have h1 := (apply_tool_offset_offset_formula (-((4501 : ℚ) / 100))
    (-(((47 : ℕ) : ℚ) + ((30 : ℕ) : ℚ) / 10 ^ (2 : ℕ)))
    (fun n => match n with
      | 0 => ["PRB:0,0,-47.5"]
      | 1 => ["ok"]
      | 2 => ["PRB:0,0,-47.30"]
      | 3 => ["ok"]
      | _ => []) 0 3
    ["G38.2 Z-50 F200", "G0 Z10", "G38.2 Z-50 F100"] h).1
  rw [h1]
  have hoff : (-((4501 : ℚ) / 100)) - (-(((47 : ℕ) : ℚ) + ((30 : ℕ) : ℚ) / 10 ^ (2 : ℕ))) =
      (229 : ℚ) / 100 := by
    push_cast
    norm_num
  rw [hoff]
  have hf : format4 ((229 : ℚ) / 100) = "2.2900" := by
    have hfl : Int.floor (((229 : ℚ) / 100) * 10000 + 1 / 2) = (22900 : ℤ) := by norm_num
    unfold format4
    rw [hfl]
    rfl
  rw [hf]
  rfl

/-- The commands probe_tool writes are always an initial segment of the
fixed fast-probe, back-off, slow-probe sequence. -/
theorem probe_tool_cmds_cases (resp : Nat → List String) (w : Nat) :
    (probe_tool resp w).1 = [probeFastCmd] ∨
    (probe_tool resp w).1 = [probeFastCmd, backOffCmd] ∨
    (probe_tool resp w).1 = [probeFastCmd, backOffCmd, probeSlowCmd] := by
  unfold probe_tool
  repeat' split
  all_goals first
    | exact Or.inl rfl
    | exact Or.inr (Or.inl rfl)
    | exact Or.inr (Or.inr rfl)

/-- C6: whenever a probe reading is missing — the stored reference Z is
`None` or the new-tool probe produced no parsed reading — apply_tool_offset
never writes a `G43` tool-length-offset command and never reports an
applied offset, in particular never a silent zero offset. -/
theorem apply_tool_offset_no_g43_without_reading (ref : Option ℚ)
    (resp : Nat → List String) (w : Nat)
    (h : ref = none ∨ (probe_tool resp w).2.2 = ProbeOutcome.reading none ∨
         (probe_tool resp w).2.2 = ProbeOutcome.blocks ∨
         (probe_tool resp w).2.2 = ProbeOutcome.raises) :
    (apply_tool_offset ref resp w).1.filter (fun c => strStarts "G43" c) = [] ∧
    ∀ q : ℚ, (apply_tool_offset ref resp w).2.2 ≠ ApplyOutcome.applied q := by
  have hc := probe_tool_cmds_cases resp w
  have hfilter : ∀ cs : List String,
      cs = [probeFastCmd] ∨ cs = [probeFastCmd, backOffCmd] ∨
        cs = [probeFastCmd, backOffCmd, probeSlowCmd] →
      cs.filter (fun c => strStarts "G43" c) = [] := by
    intro cs hcs
    rcases hcs with hcs | hcs | hcs <;> rw [hcs] <;> rfl
  rcases hp : probe_tool resp w with ⟨cs, w1, out⟩
  rw [hp] at hc
  simp only at hc
  unfold apply_tool_offset
  rw [hp]
  cases out with
  | blocks => exact ⟨hfilter cs hc, fun q hq => by cases hq⟩
  | raises => exact ⟨hfilter cs hc, fun q hq => by cases hq⟩
  | reading z =>
    cases z with
    | none => exact ⟨hfilter cs hc, fun q hq => by cases hq⟩
    | some zv =>
      rw [hp] at h
      simp only at h
      rcases h with h | h | h | h
      · rw [h]
        exact ⟨hfilter cs hc, fun q hq => by cases hq⟩
      · exact absurd h (by simp)
      · exact absurd h (by simp)
      · exact absurd h (by simp)

/-- C6 witness: with a reference present but a malformed confirm probe
report, no command written starts with `G43` and no offset is applied. -/
theorem apply_tool_offset_no_g43_without_reading_witness :
    ((apply_tool_offset (some 1)
      (fun n => match n with
        | 0 => ["PRB:0,0,-45.23"]
        | 1 => ["ok"]
        | 2 => ["PRB:oops"]
        | _ => []) 0).1.filter (fun c => strStarts "G43" c) = [] ∧
      (apply_tool_offset (some 1)
        (fun n => match n with
          | 0 => ["PRB:0,0,-45.23"]
          | 1 => ["ok"]
          | 2 => ["PRB:oops"]
          | _ => []) 0).2.2 ≠ ApplyOutcome.applied 0) := by
  have h := apply_tool_offset_no_g43_without_reading (some 1)
    (fun n => match n with
      | 0 => ["PRB:0,0,-45.23"]
      | 1 => ["ok"]
      | 2 => ["PRB:oops"]
      | _ => []) 0
    (Or.inr (Or.inl rfl))
  exact ⟨h.1, h.2 0⟩

/-- C7 counterexample: the second probe phase does not park the machine in
its probing state when the probe fails to obtain a reading.  With a stored
reference, a transport acknowledging every setup command, a fast probe
report of -45.23 but a malformed confirm report `PRB:oops` (no reading),
probe_new_tool still completes and transitions the machine from PROBING2
to READY instead of leaving it in PROBING2 for retry. -/
theorem probe_new_tool_advances_without_reading :
    (probe_new_tool false (some 1) MachineState.PROBING2
        (fun n => match n with
          | 5 => ["PRB:0,0,-45.23"]
          | 6 => ["ok"]
          | 7 => ["PRB:oops"]
          | _ => ["ok"]) 0).1 = MachineState.READY ∧
    (probe_new_tool false (some 1) MachineState.PROBING2
        (fun n => match n with
          | 5 => ["PRB:0,0,-45.23"]
          | 6 => ["ok"]
          | 7 => ["PRB:oops"]
          | _ => ["ok"]) 0).2.1 = RoutineOutcome.completed ∧
    (apply_tool_offset (some 1)
        (fun n => match n with
          | 5 => ["PRB:0,0,-45.23"]
          | 6 => ["ok"]
          | 7 => ["PRB:oops"]
          | _ => ["ok"]) 5).2.2 = ApplyOutcome.noReading ∧
    MachineState.READY ≠ MachineState.PROBING2 := by
  refine ⟨rfl, rfl, rfl, by decide⟩

/-- C7 amended: on a missing probe reading the routines do not stay in
their probing state — whenever they complete they transition onward
unconditionally (probe_old_tool always ends PROBING2, probe_new_tool always
ends READY); the machine remains in the probing state only when the routine
never returns (a blocked wait) or an exception escapes it. -/
theorem probe_routines_transition_onward :
    (∀ (d : Bool) (old : Option ℚ) (st : MachineState)
        (resp : Nat → List String) (w : Nat),
      ((probe_new_tool d old st resp w).2.1 = RoutineOutcome.completed →
        (probe_new_tool d old st resp w).1 = MachineState.READY) ∧
      ((probe_new_tool d old st resp w).2.1 ≠ RoutineOutcome.completed →
        (probe_new_tool d old st resp w).1 = st)) ∧
    (∀ (d : Bool) (resp : Nat → List String) (w : Nat),
      ((probe_old_tool d resp w).2.1 = RoutineOutcome.completed →
        (probe_old_tool d resp w).1 = MachineState.PROBING2) ∧
      ((probe_old_tool d resp w).2.1 ≠ RoutineOutcome.completed →
        (probe_old_tool d resp w).1 = MachineState.PROBING1)) := by
  constructor
  · intro d old st resp w
    unfold probe_new_tool
    repeat' split
    all_goals simp
  · intro d resp w
    unfold probe_old_tool
    repeat' split
    all_goals simp

/-- C7 witness: in dummy mode both routines complete and transition onward
(probe_new_tool to READY, probe_old_tool to PROBING2). -/
theorem probe_routines_transition_onward_witness :
    (probe_new_tool true none MachineState.PROBING2 (fun _ => []) 0).1 =
      MachineState.READY ∧
    (probe_old_tool true (fun _ => []) 0).1 = MachineState.PROBING2 :=
  ⟨(probe_routines_transition_onward.1 true none MachineState.PROBING2
      (fun _ => []) 0).1 rfl,
   (probe_routines_transition_onward.2 true (fun _ => []) 0).1 rfl⟩

/-- If the send_gcode_and_wait read loop never returns, every line of the
stream was either empty (skipped) or non-terminal. -/
theorem waitResp_none_char (p : Bool) :
    ∀ (stream acc : List String), waitResp p acc stream = none →
      ∀ l ∈ stream, l = "" ∨ terminalFor p l = false := by
  intro stream
  induction stream with
  | nil =>
    intro acc h l hl
    cases hl
  | cons x rest ih =>
    intro acc h l hl
    unfold waitResp at h
    by_cases hx : x = ""
    · rw [if_pos hx] at h
      rcases List.mem_cons.mp hl with rfl | hl2
      · exact Or.inl hx
      · exact ih acc h l hl2
    · rw [if_neg hx] at h
      by_cases ht : terminalFor p x = true
      · rw [if_pos ht] at h
        cases h
      · rw [if_neg ht] at h
        rcases List.mem_cons.mp hl with rfl | hl2
        · exact Or.inr (by simpa using ht)
        · exact ih (acc ++ [x]) h l hl2

/-- If the send_gcode_and_wait read loop returns, the stream splits at its
first terminal line: everything before it is empty or non-terminal, and the
returned response is the accumulator, the non-empty prefix lines, and the
terminal line itself. -/
theorem waitResp_some_char (p : Bool) :
    ∀ (stream acc rs : List String), waitResp p acc stream = some rs →
      ∃ pre term rest, stream = pre ++ term :: rest ∧ terminalFor p term = true ∧
        (∀ l ∈ pre, l = "" ∨ terminalFor p l = false) ∧
        rs = acc ++ pre.filter (fun l => !(l == "")) ++ [term] := by
  intro stream
  induction stream with
  | nil =>
    intro acc rs h
    cases h
  | cons x rest ih =>
    intro acc rs h
    unfold waitResp at h
    by_cases hx : x = ""
    · rw [if_pos hx] at h
      obtain ⟨pre, term, rest2, heq, hterm, hpre, hrs⟩ := ih acc rs h
      refine ⟨x :: pre, term, rest2, by simp [heq], hterm, ?_, ?_⟩
      · intro l hl
        rcases List.mem_cons.mp hl with rfl | hl2
        · exact Or.inl hx
        · exact hpre l hl2
      · rw [hrs]
        simp [List.filter_cons, hx]
    · rw [if_neg hx] at h
      by_cases ht : terminalFor p x = true
      · rw [if_pos ht] at h
        injection h with h2
        refine ⟨[], x, rest, rfl, ht, by simp, ?_⟩
        rw [← h2]
        simp
      · rw [if_neg ht] at h
        obtain ⟨pre, term, rest2, heq, hterm, hpre, hrs⟩ := ih (acc ++ [x]) rs h
        refine ⟨x :: pre, term, rest2, by simp [heq], hterm, ?_, ?_⟩
        · intro l hl
          rcases List.mem_cons.mp hl with rfl | hl2
          · exact Or.inr (by simpa using ht)
          · exact hpre l hl2
        · rw [hrs]
          simp [List.filter_cons, hx]

/-- C3 counterexample: the ok/error wait is a case-sensitive substring
test, not a case-insensitive equality.  A response line `OK` — which is
case-insensitively equal to `ok` — never terminates the read loop (the
send blocks forever), while a line `xok`, which is neither equal to `ok`
nor error-prefixed nor ALARM-containing, does terminate it. -/
theorem send_gcode_and_wait_case_blind_counterexample :
    "OK".toList.map Char.toLower = "ok".toList ∧
    send_gcode_and_wait false ["OK"] = none ∧
    send_gcode_and_wait false ["xok"] = some ["xok"] := by
  refine ⟨by decide, rfl, rfl⟩

/-- C3 amended: a send with the ok/error wait policy stops reading exactly
at the first line that contains (case-sensitively) one of the substrings
`ok`, `error`, `ALARM` or `PRB`; every earlier line is empty (skipped) or
non-terminal, every earlier non-empty line is accumulated, and the terminal
line is included in the returned response.  If no such line arrives the
read loop never returns. -/
theorem send_gcode_and_wait_ok_wait_characterization (stream : List String) :
    (send_gcode_and_wait false stream = none →
      ∀ l ∈ stream, l = "" ∨ terminalFor false l = false) ∧
    (∀ rs, send_gcode_and_wait false stream = some rs →
      ∃ pre term rest, stream = pre ++ term :: rest ∧
        terminalFor false term = true ∧
        (∀ l ∈ pre, l = "" ∨ terminalFor false l = false) ∧
        rs = pre.filter (fun l => !(l == "")) ++ [term]) := by
  constructor
  · intro h
    exact waitResp_none_char false stream [] h
  · intro rs h
    obtain ⟨pre, term, rest, heq, ht, hp, hr⟩ := waitResp_some_char false stream [] rs h
    exact ⟨pre, term, rest, heq, ht, hp, by simpa using hr⟩

/-- C3 witness: on the stream `MSG`, an empty read, then `ok`, the wait
stops at `ok` and returns the accumulated `MSG` plus the terminal line. -/
theorem send_gcode_and_wait_ok_wait_characterization_witness :
    ∃ pre term rest, (["MSG", "", "ok"] : List String) = pre ++ term :: rest ∧
      terminalFor false term = true ∧
      (∀ l ∈ pre, l = "" ∨ terminalFor false l = false) ∧
      (["MSG", "ok"] : List String) = pre.filter (fun l => !(l == "")) ++ [term] :=
  (send_gcode_and_wait_ok_wait_characterization ["MSG", "", "ok"]).2 ["MSG", "ok"] rfl

/-- Under an always-RUNNING state oracle and an all-ok transport, the
streaming loop finishes and writes exactly the lines that do not strip to
nothing, in order. -/
theorem runLoop_running_ok (f : Nat) :
    ∀ (lines : List String) (k w : Nat), ∃ tr k1 w1,
      runLoop alwaysRunning okTransport (f + 1) lines k w = (tr, LoopOut.finished k1 w1) ∧
      tr.map Prod.fst = lines.filter (fun l => !(pyStrip l == "")) := by
  intro lines
  induction lines with
  | nil =>
    intro k w
    exact ⟨[], k, w, rfl, by simp⟩
  | cons l rest ih =>
    intro k w
    have hnotstop : ¬(alwaysRunning k = MachineState.STOPPED) := fun h =>
      MachineState.noConfusion h
    have hspin : spin alwaysRunning l (f + 1) (k + 1) = some (k + 2) := by
      simp [spin, alwaysRunning]
    by_cases ht : pyStrip l = ""
    · obtain ⟨tr, k1, w1, heqr, hmap⟩ := ih (k + 2) w
      have hsl : send_line okTransport l w = (SendRes.skipped, w) := by
        simp [send_line, ht]
      refine ⟨tr, k1, w1, ?_, ?_⟩
      · unfold runLoop
        rw [if_neg hnotstop, hspin, hsl]
        exact heqr
      · have hpred : (!(pyStrip l == "")) = false := by simp [ht]
        simp [List.filter_cons, hpred, hmap]
    · obtain ⟨tr, k1, w1, heqr, hmap⟩ := ih (k + 2) (w + 1)
      have hsl : send_line okTransport l w = (SendRes.done, w + 1) := by
        simp [send_line, ht, send_line_wait, okTransport]
      refine ⟨(l, k + 2) :: tr, k1, w1, ?_, ?_⟩
      · unfold runLoop
        rw [if_neg hnotstop, hspin, hsl]
        simp [heqr]
      · have hpred : (!(pyStrip l == "")) = true := by simp [ht]
        simp [List.filter_cons, hpred, hmap]

/-- C1 counterexample: comment lines are dispatched.  For the 3-line
program `G0 X0`, `;comment`, `G1 X10 F100` with a stub transport replying
ok to every write, the runner sends all three lines — the `;comment` line
included — not two, though it does end in READY. -/
theorem gcode_thread_comment_line_dispatched :
    (gcode_thread alwaysRunning okTransport 1
        ["G0 X0\n", ";comment\n", "G1 X10 F100\n"]).progSent.map Prod.fst =
      ["G0 X0\n", ";comment\n", "G1 X10 F100\n"] ∧
    (gcode_thread alwaysRunning okTransport 1
        ["G0 X0\n", ";comment\n", "G1 X10 F100\n"]).progSent.length = 3 ∧
    (gcode_thread alwaysRunning okTransport 1
        ["G0 X0\n", ";comment\n", "G1 X10 F100\n"]).finalState = some MachineState.READY ∧
    (gcode_thread alwaysRunning okTransport 1
        ["G0 X0\n", ";comment\n", "G1 X10 F100\n"]).progSent.map Prod.fst ≠
      ["G0 X0\n", "G1 X10 F100\n"] := by
  refine ⟨rfl, rfl, rfl, by decide⟩

/-- C1 amended: with a stub transport replying ok to every write and no
operator intervention, the program lines the runner dispatches are exactly
the lines that are non-blank after stripping — comment lines starting with
`;` are NOT filtered and are dispatched too — in original file order, the
completion trailer is sent, and the machine ends in READY. -/
theorem gcode_thread_dispatches_all_nonblank (lines : List String) (f : Nat) :
    (gcode_thread alwaysRunning okTransport (f + 1) lines).progSent.map Prod.fst =
      lines.filter (fun l => !(pyStrip l == "")) ∧
    (gcode_thread alwaysRunning okTransport (f + 1) lines).finalState =
      some MachineState.READY ∧
    (gcode_thread alwaysRunning okTransport (f + 1) lines).trailerSent =
      ["M5\n", "$H\n", "\x18\n"] := by
  obtain ⟨tr, k1, w1, heqr, hmap⟩ := runLoop_running_ok f lines 0 1
  have hhome : send_line okTransport "$H\n" 0 = (SendRes.done, 1) := rfl
  have htrail : sendTrailer okTransport w1 = (["M5\n", "$H\n", "\x18\n"], some (w1 + 3)) := rfl
  have hrun : alwaysRunning k1 = MachineState.RUNNING := rfl
  unfold gcode_thread
  rw [hhome]
  simp only [heqr]
  rw [if_pos hrun]
  simp only [htrail]
  refine ⟨hmap, ?_, ?_⟩ <;> first
    | rfl
    | trivial

/-- State oracle of a run that is paused during its first line's pause-spin
and then stopped while still in the spin: the top-of-loop check sees
RUNNING, two spin reads see PAUSED, and every `get_state()` call from the
fourth (index 3) on sees STOPPED. -/
def stopAfterPause : Nat → MachineState := fun k =>
  match k with
  | 0 => MachineState.RUNNING
  | 1 => MachineState.PAUSED
  | 2 => MachineState.PAUSED
  | _ => MachineState.STOPPED

/-- C2 counterexample: Stopped entered during the pause-spin does not
suppress the current line.  With the stopAfterPause oracle the machine is
STOPPED from `get_state()` call 3 onward, yet the runner still writes the
line it was paused on at call counter 4 — i.e. after Stopped was entered —
before aborting. -/
theorem gcode_thread_sends_line_after_stop_in_pause_spin :
    (gcode_thread stopAfterPause okTransport 2 ["G1 X1\n"]).progSent =
      [("G1 X1\n", 4)] ∧
    stopAfterPause 3 = MachineState.STOPPED ∧
    stopAfterPause 4 = MachineState.STOPPED ∧
    (3 : Nat) < 4 := by
  refine ⟨rfl, rfl, rfl, by decide⟩

/-- C2 amended: once the machine is Stopped — modelled as every
`get_state()` read from call `i` on returning STOPPED — the streaming loop
writes at most one further program line after call `i` (the line whose
pause-spin the stop interrupted: the spin exits and the line is sent before
the next top-of-loop check aborts); and when Stopped is already observed at
a line boundary (the loop is entered at a call counter at or past `i`),
no program line at all is written. -/
theorem runLoop_stop_supremacy (stOr : Nat → MachineState) (resp : Nat → List String)
    (fuel i : Nat) (hstop : ∀ j, i ≤ j → stOr j = MachineState.STOPPED) :
    (∀ (lines : List String) (k w : Nat),
      ((runLoop stOr resp fuel lines k w).1.filter
        (fun p => decide (i < p.2))).length ≤ 1) ∧
    (∀ (lines : List String) (k w : Nat), i ≤ k →
      (runLoop stOr resp fuel lines k w).1 = []) := by
  have hbound : ∀ (lines : List String) (k w : Nat), i ≤ k →
      (runLoop stOr resp fuel lines k w).1 = [] := by
    intro lines k w hk
    cases lines with
    | nil => rfl
    | cons l rest =>
      unfold runLoop
      rw [if_pos (hstop k hk)]
  refine ⟨?_, hbound⟩
  intro lines
  induction lines with
  | nil =>
    intro k w
    simp [runLoop]
  | cons l rest ih =>
    intro k w
    by_cases hk : stOr k = MachineState.STOPPED
    · unfold runLoop
      rw [if_pos hk]
      simp
    · unfold runLoop
      rw [if_neg hk]
      cases hspin : spin stOr l fuel (k + 1) with
      | none => simp
      | some k1 =>
        cases hsl : send_line resp l w with
        | mk sres w1 =>
          cases sres with
          | skipped =>
            simpa using ih k1 w1
          | blockedR =>
            exact le_trans (List.length_filter_le _ _) (by simp)
          | done =>
            by_cases hik : i < k1
            · have hempty : (runLoop stOr resp fuel rest k1 w1).1 = [] :=
                hbound rest k1 w1 (Nat.le_of_lt hik)
              simp [hempty, List.filter_cons, hik]
            · have hfalse : decide (i < k1) = false := by simp [hik]
              simp only [List.filter_cons, hfalse]
              simpa using ih k1 w1

/-- C2 witness: applying the bound to the stopAfterPause run — stopped from
call 3 onward — at most one program line is written after call 3, and a
loop entered at call counter 5 (at a line boundary, past the stop) writes
nothing. -/
theorem runLoop_stop_supremacy_witness :
    ((runLoop stopAfterPause okTransport 2 ["G1 X1\n"] 0 1).1.filter
      (fun p => decide (3 < p.2))).length ≤ 1 ∧
    (runLoop stopAfterPause okTransport 2 ["G1 X1\n"] 5 0).1 = [] := by
  have hstop : ∀ j, 3 ≤ j → stopAfterPause j = MachineState.STOPPED := by
    intro j hj
    match j, hj with
    | 0, h => exact absurd h (by decide)
    | 1, h => exact absurd h (by decide)
    | 2, h => exact absurd h (by decide)
    | n + 3, _ => rfl
  exact ⟨(runLoop_stop_supremacy stopAfterPause okTransport 2 3 hstop).1
      ["G1 X1\n"] 0 1,
    (runLoop_stop_supremacy stopAfterPause okTransport 2 3 hstop).2
      ["G1 X1\n"] 5 0 (by decide)⟩
